import Mathlib

/-!
Verification of the GeoOutline map-viewer core against its specification.

The development shallowly embeds the AOI (Area of Interest) persistence
layer (`src/utils/storage.ts` and its `part_004` draft variant), the AOI
workflow controller of `MapViewerEnhanced.tsx` (`applySuggestion`,
`onCreated`, `onDeleted`, `applyOutlineAsBase`, `confirmAOI`), the
view/theme state machine (`applyTheme`, the WMS effect, the keyboard
handler), and the minimap viewport synchronizer (`useSyncMiniMap`).

Browser `localStorage` holds text; the code only ever observes that text
through `JSON.parse`, so a stored value is modelled by what `JSON.parse`
does to it: `absent` (key missing, `getItem` returns `null`), `empty`
(empty string, falsy), `malformed` (text rejected by `JSON.parse`,
which throws), or `json v` (well-formed text denoting the JSON value
`v`).  `JSON.stringify` of a JSON value followed by `JSON.parse` is the
identity, so writes store the JSON value directly.
-/

namespace GeoOutline

/-- JSON values, the portable geometry/record representation. -/
inductive Json where
  | null
  | bool (b : Bool)
  | num (n : Int)
  | str (s : String)
  | arr (elems : List Json)
  | obj (fields : List (String × Json))

/-- Whether a JSON value is an array (`Array.isArray`). -/
def Json.isArr : Json → Bool
  | Json.arr _ => true
  | _ => false

/-- Property access `v.k` on a parsed JSON value: field lookup on an
object, `undefined` (here `none`) otherwise. -/
def jget (v : Json) (k : String) : Option Json :=
  match v with
  | Json.obj fields => fields.lookup k
  | _ => none

/-- `v.push(x)`: appends on an array; on any other value the method is
`undefined` and the call throws (modelled as `none`). -/
def jsPush (v x : Json) : Option Json :=
  match v with
  | Json.arr xs => some (Json.arr (xs ++ [x]))
  | _ => none

/-- JS strict equality `v === s` between a possibly-undefined JSON value
and a string. -/
def jsStrictEqStr (v : Option Json) (s : String) : Bool :=
  match v with
  | some (Json.str t) => t == s
  | _ => false

/-- `v.filter(a => a.id !== idv)`: keeps array elements whose `id` field
is not strictly equal to `idv`; throws (`none`) on a non-array. -/
def jsFilterIdNe (v : Json) (idv : String) : Option Json :=
  match v with
  | Json.arr xs =>
      some (Json.arr (xs.filter (fun e => ! jsStrictEqStr (jget e "id") idv)))
  | _ => none

/-- The persisted AOI record (`interface AOI` in `storage.ts`). -/
structure AOI where
  id : String
  name : String
  geometry : Json
  createdAt : String

/-- Encoding of an AOI record as the JSON object that
`JSON.stringify` serializes and `JSON.parse` recovers. -/
def encodeAOI (a : AOI) : Json :=
  Json.obj [("id", Json.str a.id), ("name", Json.str a.name),
            ("geometry", a.geometry), ("createdAt", Json.str a.createdAt)]

/-- Encoding of a stored AOI collection as a JSON array. -/
def encodeAOIs (l : List AOI) : Json :=
  Json.arr (l.map encodeAOI)

/-- A `localStorage` slot as observed through `JSON.parse` (see the
module docstring). -/
inductive StoredVal where
  | absent
  | empty
  | malformed
  | json (v : Json)

/-- The browser-local storage visible to the store: the AOI-collection
key, the theme key, and whether writes currently succeed (`writable :=
false` models quota exceeded / storage disabled, where `setItem`
throws). -/
structure LocalStorage where
  aoiKey : StoredVal
  themeKey : StoredVal
  writable : Bool

/-- Exceptions the storage layer can raise. -/
inductive JSError where
  | typeError
  | storageError

/-- `localStorage.setItem(KEY, JSON.stringify(v))`: throws when the
medium is unavailable or over quota. -/
def setItem (ls : LocalStorage) (v : Json) : Except JSError LocalStorage :=
  if ls.writable then Except.ok { ls with aoiKey := StoredVal.json v }
  else Except.error JSError.storageError

/-- `loadAOIs` (`src/utils/storage.ts`, line 4): reads the key inside
`try`, returns `[]` for a falsy raw value, otherwise returns
`JSON.parse(raw)` cast — unchecked — to `AOI[]`; any thrown error
yields `[]`. -/
def loadAOIs (ls : LocalStorage) : Json :=
  match ls.aoiKey with
  | StoredVal.absent => Json.arr []
  | StoredVal.empty => Json.arr []
  | StoredVal.malformed => Json.arr []
  | StoredVal.json v => v

/-- `saveAOIs` (`src/utils/storage.ts`, line 8): a bare
`localStorage.setItem` with no `try`/`catch`; a storage failure
propagates to the caller. -/
def saveAOIs (ls : LocalStorage) (v : Json) : Except JSError LocalStorage :=
  setItem ls v

/-- `saveAOIs` of the `part_004` draft (`src/unnamed/part_004`, lines
39–43): the same write wrapped in `try { … } catch {}`, so a storage
failure is swallowed and the call is a no-op. -/
def saveAOIs_part004 (ls : LocalStorage) (v : Json) : LocalStorage :=
  match setItem ls v with
  | Except.ok ls2 => ls2
  | Except.error _ => ls

/-- `addAOI` (`src/utils/storage.ts`, line 10): load, `push`, save. -/
def addAOI (ls : LocalStorage) (aoi : AOI) : Except JSError LocalStorage :=
  match jsPush (loadAOIs ls) (encodeAOI aoi) with
  | none => Except.error JSError.typeError
  | some v => saveAOIs ls v

/-- `deleteAOI` (`src/utils/storage.ts`, line 12, and
`MapViewerEnhanced.tsx`, line 297): load, `filter(a => a.id !== id)`,
save. -/
def deleteAOI (ls : LocalStorage) (idv : String) : Except JSError LocalStorage :=
  match jsFilterIdNe (loadAOIs ls) idv with
  | none => Except.error JSError.typeError
  | some v => saveAOIs ls v

/-! ### AOI workflow controller (`MapViewerEnhanced.tsx`)

The drawing surface is the leaflet `FeatureGroup` referenced by
`featureGroupRef`; its `_layers` registry is modelled as a list kept in
insertion order (`Object.values` order).  The suggestion outline of
`applySuggestion` is rendered by `MapCanvas` as a `<GeoJSON>` element
*outside* the feature group, so it never contributes a layer to the
surface; `applyOutlineAsBase` is the only path that puts the outline
into the feature group. -/

/-- A layer held by the drawing surface: either a hand-drawn shape or
the `L.geoJSON` layer that `applyOutlineAsBase` adds.  `toGeoJSON`
recovers the portable geometry. -/
inductive Shape where
  | drawn (g : Json)
  | outline (g : Json)

/-- `layer.toGeoJSON()`. -/
def Shape.toGeoJSON : Shape → Json
  | Shape.drawn g => g
  | Shape.outline g => g

/-- A geocoding suggestion: display name, optional point, optional
outline geometry (`display_name`, `lat`/`lon`, `geojson`). -/
structure Suggestion where
  display_name : String
  latlon : Option (Rat × Rat)
  geojson : Option Json

/-- The workflow controller's React state, restricted to the fields the
draw/suggestion/confirm flow touches.  `fgAttached` models whether
`featureGroupRef.current` is non-null; `fgLayers` is the feature
group's layer registry. -/
structure WState where
  fgAttached : Bool
  fgLayers : List Shape
  confirmDisabled : Bool
  outlinePolygon : Option Json
  searchQuery : String
  suggestions : List Suggestion

/-- Initial state after mount: no shapes, confirm disabled
(`useState(true)`), no staged outline. -/
def initWState : WState :=
  { fgAttached := true, fgLayers := [], confirmDisabled := true,
    outlinePolygon := none, searchQuery := "", suggestions := [] }

/-- The shape count `confirmAOI`/`onDeleted` observe:
`fg ? Object.keys(fg._layers).length : 0`. -/
def shapeCount (st : WState) : Nat :=
  if st.fgAttached then st.fgLayers.length else 0

/-- `applySuggestion` (`MapViewerEnhanced.tsx`, lines 147–172): set the
search text, clear suggestions; with a `geojson` outline, stage it and
enable confirm; without one, clear the staged outline and disable
confirm.  The map recentering and deferred `fitBounds` touch only the
viewport, which this state does not include. -/
def applySuggestion (st : WState) (s : Suggestion) : WState :=
  let st1 := { st with searchQuery := s.display_name, suggestions := [] }
  match s.geojson with
  | some g => { st1 with outlinePolygon := some g, confirmDisabled := false }
  | none => { st1 with outlinePolygon := none, confirmDisabled := true }

/-- `onCreated` (lines 175–190): the draw plugin has already added the
new layer to the feature group when the event fires; the handler styles
it and enables confirm unconditionally. -/
def onCreated (st : WState) (sh : Shape) : WState :=
  { st with fgLayers := st.fgLayers ++ [sh], confirmDisabled := false }

/-- `onDeleted` (lines 192–197): the plugin has already removed the
deleted layers; the handler recounts the feature group and disables
confirm exactly when the count is zero.  (`setAoIs(loadAOIs())` only
refreshes the displayed list and is not part of this state.) -/
def onDeleted (st : WState) (remaining : List Shape) : WState :=
  let st1 := { st with fgLayers := remaining }
  { st1 with confirmDisabled := shapeCount st1 == 0 }

/-- Events the confirm-gating claim ranges over. -/
inductive WEvent where
  | created (sh : Shape)
  | deleted (remaining : List Shape)
  | suggestion (s : Suggestion)

/-- Whether an event is a draw event (created/deleted). -/
def WEvent.isDraw : WEvent → Bool
  | WEvent.created _ => true
  | WEvent.deleted _ => true
  | WEvent.suggestion _ => false

/-- One controller step. -/
def stepW (st : WState) : WEvent → WState
  | WEvent.created sh => onCreated st sh
  | WEvent.deleted remaining => onDeleted st remaining
  | WEvent.suggestion s => applySuggestion st s

/-- A sequence of controller steps. -/
def runW (st : WState) (evs : List WEvent) : WState :=
  evs.foldl stepW st

/-- The confirm-gating invariant of the spec: the confirm action is
enabled iff the drawing surface holds at least one shape. -/
def confirmInv (st : WState) : Prop :=
  st.confirmDisabled = false ↔ 0 < shapeCount st

/-- A user-visible toast notification. -/
inductive Notice where
  | errorN (msg : String)
  | successN (msg : String)

/-- `applyOutlineAsBase` (lines 211–234): error toast when no outline
is staged; silent return when the feature group ref is null; otherwise
`clearLayers()` then add the single `L.geoJSON(outlinePolygon)` layer,
enable confirm, success toast.  (`fitBounds` affects only the
viewport.) -/
def applyOutlineAsBase (st : WState) : WState × Option Notice :=
  match st.outlinePolygon with
  | none => (st, some (Notice.errorN "No outline available."))
  | some g =>
      if st.fgAttached then
        ({ st with fgLayers := [Shape.outline g], confirmDisabled := false },
         some (Notice.successN "Outline applied — edit if needed."))
      else (st, none)

/-- `confirmAOI` (lines 236–264): error toast when the feature group
ref is null or holds no layers; otherwise build an AOI from
`layers[0].toGeoJSON()` — only the first layer — with a fresh id
(`crypto.randomUUID()`, passed in as `newId`), a timestamp-derived name
and creation time, persist it with `addAOI`, and toast success.  A
storage error thrown by `addAOI` is not caught here and propagates. -/
def confirmAOI (st : WState) (ls : LocalStorage) (newId nameTs createdAt : String) :
    Except JSError (LocalStorage × Notice) :=
  if st.fgAttached then
    match st.fgLayers with
    | [] => Except.ok (ls, Notice.errorN "Draw or apply an outline first.")
    | l :: _ =>
        let aoi : AOI :=
          { id := newId, name := "Area " ++ nameTs,
            geometry := l.toGeoJSON, createdAt := createdAt }
        match addAOI ls aoi with
        | Except.error e => Except.error e
        | Except.ok ls2 => Except.ok (ls2, Notice.successN "Area of Interest saved")
  else Except.ok (ls, Notice.errorN "No area to confirm")

/-! ### View/theme state machine (`MapViewerEnhanced.tsx`)

React's `setState` bails out when the new value equals the current one
(`Object.is`), so requesting the current `viewMode` re-runs neither the
render nor the `[viewMode]` WMS effect; this is what makes the direct
`setViewMode(current)` calls from the toolbar and the bottom-left
toggle no-ops.  Observable side effects are counted in `FX`. -/

/-- `viewMode ∈ \x7b"base", "map"\x7d`. -/
inductive ViewMode where
  | base
  | map
deriving DecidableEq

/-- `theme ∈ \x7b"light", "dark"\x7d`. -/
inductive ThemeMode where
  | light
  | dark
deriving DecidableEq

/-- The view/theme-relevant component state.  `wmsInstalled` is whether
the NRW WMS overlay is currently on the map; `themeStore` is the
durable `THEME_KEY` slot; `storeWritable` is whether `setItem`
currently succeeds; `mapAttached` is whether `mapRef.current` is
non-null. -/
structure ViewState where
  viewMode : ViewMode
  theme : ThemeMode
  fading : Bool
  wmsInstalled : Bool
  themeStore : Option ThemeMode
  storeWritable : Bool
  shortcutOpen : Bool
  mapAttached : Bool
  center : Rat × Rat
  zoom : Int

/-- Observable side effects of one UI action: fade transitions begun,
imagery-layer add/removes performed by the WMS effect, durable theme
writes, toasts shown. -/
structure FX where
  fades : Nat
  layerSwaps : Nat
  themeWrites : Nat
  toasts : Nat

/-- No side effects. -/
def FX.zero : FX := ⟨0, 0, 0, 0⟩

/-- `setView(INITIAL_CENTER, INITIAL_ZOOM)` target of `resetMap`. -/
def INITIAL_CENTER : Rat × Rat := (50.9375, 6.9603)

/-- Initial zoom level. -/
def INITIAL_ZOOM : Int := 12

/-- A `setViewMode(next)` request together with the `[viewMode]` WMS
effect (lines 100–121): if `next` equals the current mode React bails
out and the effect does not re-run; otherwise the effect fires —
returning early if the map is not attached — removes the previous WMS
overlay if present and installs the overlay exactly in base mode. -/
def reactSetViewMode (s : ViewState) (next : ViewMode) : ViewState × FX :=
  if next = s.viewMode then (s, FX.zero)
  else if s.mapAttached then
    ({ s with viewMode := next, wmsInstalled := decide (next = ViewMode.base) },
     { FX.zero with layerSwaps := 1 })
  else ({ s with viewMode := next }, FX.zero)

/-- `applyTheme` (lines 312–325): strict no-op when the requested theme
is current; otherwise fade, set the theme, persist it inside
`try`/`catch` (a storage failure is swallowed), and end the fade. -/
def applyTheme (s : ViewState) (next : ThemeMode) : ViewState × FX :=
  if s.theme = next then (s, FX.zero)
  else
    ({ s with theme := next,
              themeStore := if s.storeWritable then some next else s.themeStore,
              fading := false },
     { fades := 1, layerSwaps := 0,
       themeWrites := if s.storeWritable then 1 else 0, toasts := 0 })

/-- `resetMap` (lines 305–310): silent no-op when the map is not
attached; otherwise reset the viewport and toast. -/
def resetMap (s : ViewState) : ViewState × FX :=
  if s.mapAttached then
    ({ s with center := INITIAL_CENTER, zoom := INITIAL_ZOOM },
     { FX.zero with toasts := 1 })
  else (s, FX.zero)

/-- Keys the `handleKey` listener reacts to. -/
inductive Key where
  | question
  | b
  | m
  | r
  | d
  | other

/-- `handleKey` (lines 352–389): ignored while typing in an input or
textarea; `?` toggles the shortcut panel; `b`/`m` begin a fade, toast,
and after the masking delay set the view mode and end the fade — the
fade and toast happen regardless of whether the mode actually changes;
`r` resets the map; `d` toggles the theme through `applyTheme`. -/
def handleKey (s : ViewState) (inTextField : Bool) (k : Key) : ViewState × FX :=
  if inTextField then (s, FX.zero)
  else
    match k with
    | Key.question => ({ s with shortcutOpen := ! s.shortcutOpen }, FX.zero)
    | Key.b =>
        let p := reactSetViewMode s ViewMode.base
        ({ p.1 with fading := false },
         { p.2 with fades := p.2.fades + 1, toasts := p.2.toasts + 1 })
    | Key.m =>
        let p := reactSetViewMode s ViewMode.map
        ({ p.1 with fading := false },
         { p.2 with fades := p.2.fades + 1, toasts := p.2.toasts + 1 })
    | Key.r => resetMap s
    | Key.d =>
        applyTheme s
          (if s.theme = ThemeMode.light then ThemeMode.dark else ThemeMode.light)
    | Key.other => (s, FX.zero)

/-! ### Minimap viewport synchronizer (`useSyncMiniMap`) -/

/-- The viewport-relevant state of one leaflet map instance.
`lastAnimate` records the `animate` option of the most recent
`setView` applied to it. -/
structure MView where
  center : Rat × Rat
  zoom : Int
  lastAnimate : Option Bool

/-- One run of `sync` (`MapViewerEnhanced.tsx`, lines 32–38): set the
minimap's view to the primary's center and `Math.max(0, zoom - 4)`,
without animation. -/
def miniSync (main mini : MView) : MView :=
  { mini with center := main.center, zoom := max 0 (main.zoom - 4),
              lastAnimate := some false }

/-- A move or zoom event on the primary map. -/
inductive MainEvent where
  | move (c : Rat × Rat)
  | zoomTo (z : Int)

/-- One synchronization step: the primary's viewport changes, then the
`"move"`/`"zoom"` listener runs `sync`. -/
def stepSync (p : MView × MView) (e : MainEvent) : MView × MView :=
  match e with
  | MainEvent.move c =>
      let m := { p.1 with center := c }
      (m, miniSync m p.2)
  | MainEvent.zoomTo z =>
      let m := { p.1 with zoom := z }
      (m, miniSync m p.2)

/-- A sequence of primary-map events, each followed by `sync`. -/
def runSync (p : MView × MView) (evs : List MainEvent) : MView × MView :=
  evs.foldl stepSync p

/-- The effect body of `useSyncMiniMap` (lines 22–49): if either map
ref is still null, return without attaching anything (`none`);
otherwise attach the listeners and run the initial `sync`. -/
def attachSync (main mini : Option MView) : Option (MView × MView) :=
  match main, mini with
  | some m, some mi => some (m, miniSync m mi)
  | _, _ => none

/-- The synchronized-viewport relation the spec states. -/
def syncInv (p : MView × MView) : Prop :=
  p.2.center = p.1.center ∧ p.2.zoom = max 0 (p.1.zoom - 4) ∧
    p.2.lastAnimate = some false

/-! ### Helper lemmas -/

/-- The encoded record's `id` field. -/
lemma jget_encode_id (a : AOI) : jget (encodeAOI a) "id" = some (Json.str a.id) := rfl

/-- The encoded record's `geometry` field deep-equals the geometry of
the record. -/
lemma jget_encode_geometry (a : AOI) :
    jget (encodeAOI a) "geometry" = some a.geometry := rfl

/-- The JS keep-predicate of `deleteAOI` agrees with `a.id != x` on
encoded records. -/
lemma keep_encode (a : AOI) (x : String) :
    (! jsStrictEqStr (jget (encodeAOI a) "id") x) = (a.id != x) := rfl

/-- Filtering encoded records by `a.id !== x` is encoding the filtered
records. -/
lemma filter_encode (old : List AOI) (x : String) :
    (old.map encodeAOI).filter (fun e => ! jsStrictEqStr (jget e "id") x)
      = (old.filter (fun a => a.id != x)).map encodeAOI := by
  induction old with
  | nil => rfl
  | cons a l ih =>
      by_cases h : a.id = x
      · simp [List.filter_cons, keep_encode, h, ih]
      · simp [List.filter_cons, keep_encode, h, ih]

/-- `addAOI` on a writable store holding a well-formed collection
appends the encoded record. -/
lemma addAOI_ok (ls : LocalStorage) (old : List AOI) (aoi : AOI)
    (hstore : ls.aoiKey = StoredVal.json (encodeAOIs old))
    (hw : ls.writable = true) :
    addAOI ls aoi =
      Except.ok { ls with aoiKey := StoredVal.json (encodeAOIs (old ++ [aoi])) } := by
  simp [addAOI, loadAOIs, hstore, encodeAOIs, jsPush, saveAOIs, setItem, hw]

/-! ### Claim C2 — error handling of the save operation -/

/-- Claim C2, counterexample: the claim says the store's save operation
never propagates an error to its caller; but `saveAOIs` of
`src/utils/storage.ts` has no `try`/`catch`, so on an unavailable
medium (concretely: an empty, unwritable storage) the call raises the
storage error instead of returning normally. -/
theorem saveAOIs_propagates_cex :
    saveAOIs ⟨StoredVal.absent, StoredVal.absent, false⟩ (Json.arr [])
      = Except.error JSError.storageError := rfl

/-- Claim C2 as amended: when the backing medium is unavailable or over
quota, the `part_004` draft of `saveAOIs` swallows the write error and
returns with the storage unchanged (a no-op), while `saveAOIs` of
`src/utils/storage.ts` propagates the storage error to its caller. -/
theorem saveAOIs_error_handling (ls : LocalStorage) (v : Json)
    (h : ls.writable = false) :
    saveAOIs_part004 ls v = ls ∧
      saveAOIs ls v = Except.error JSError.storageError := by
  simp [saveAOIs_part004, saveAOIs, setItem, h]

/-- Claim C2 witness: the amended statement at a concrete unwritable
store. -/
theorem saveAOIs_error_handling_witness :
    (⟨StoredVal.empty, StoredVal.absent, false⟩ : LocalStorage).writable = false ∧
      (saveAOIs_part004 ⟨StoredVal.empty, StoredVal.absent, false⟩ (Json.arr [Json.null])
          = ⟨StoredVal.empty, StoredVal.absent, false⟩ ∧
        saveAOIs ⟨StoredVal.empty, StoredVal.absent, false⟩ (Json.arr [Json.null])
          = Except.error JSError.storageError) :=
  ⟨rfl, saveAOIs_error_handling _ _ rfl⟩

/-! ### Claim C3 — save-then-list round trip -/

/-- Claim C3, counterexample: the claim asserts that for *every* new
AOI record, after `addAOI` the new record's id is unique among all
stored records; but `addAOI` never inspects ids, so adding a record
whose id `"a"` is already stored yields a collection with two records
of id `"a"`. -/
theorem addAOI_duplicate_id_cex :
    addAOI ⟨StoredVal.json (encodeAOIs [⟨"a", "n1", Json.null, "t1"⟩]),
            StoredVal.absent, true⟩
        ⟨"a", "n2", Json.null, "t2"⟩
      = Except.ok ⟨StoredVal.json
            (encodeAOIs [⟨"a", "n1", Json.null, "t1"⟩, ⟨"a", "n2", Json.null, "t2"⟩]),
          StoredVal.absent, true⟩ ∧
      ¬ (([⟨"a", "n1", Json.null, "t1"⟩, ⟨"a", "n2", Json.null, "t2"⟩] : List AOI).map
          AOI.id).Nodup := by
  constructor
  · rfl
  · decide

/-- Claim C3 as amended: provided the new record's id differs from
every previously stored id (as the `crypto.randomUUID()` ids of
`confirmAOI` do), the previously stored ids are duplicate-free, and the
backing medium is writable, then saving with `addAOI` and listing with
`loadAOIs` yields exactly the previous records, unchanged and in
insertion order, with the new record appended last; the appended
record's `geometry` field deep-equals the geometry passed at save time,
and its id is unique among all stored records. -/
theorem addAOI_round_trip (ls : LocalStorage) (old : List AOI) (aoi : AOI)
    (hstore : ls.aoiKey = StoredVal.json (encodeAOIs old))
    (hw : ls.writable = true)
    (hfresh : aoi.id ∉ old.map AOI.id)
    (hnodup : (old.map AOI.id).Nodup) :
    addAOI ls aoi =
        Except.ok { ls with aoiKey := StoredVal.json (encodeAOIs (old ++ [aoi])) } ∧
      loadAOIs { ls with aoiKey := StoredVal.json (encodeAOIs (old ++ [aoi])) }
        = encodeAOIs (old ++ [aoi]) ∧
      jget (encodeAOI aoi) "geometry" = some aoi.geometry ∧
      ((old ++ [aoi]).map AOI.id).Nodup := by
  refine ⟨addAOI_ok ls old aoi hstore hw, rfl, jget_encode_geometry aoi, ?_⟩
  simp [List.nodup_append, hnodup]
  intro b hb hid
  exact hfresh (hid ▸ List.mem_map_of_mem AOI.id hb)

/-- Claim C3 witness: the amended statement at a concrete store holding
one record with id `"a"` and a fresh record with id `"b"`. -/
theorem addAOI_round_trip_witness :
    ((⟨StoredVal.json (encodeAOIs [⟨"a", "n1", Json.null, "t1"⟩]),
        StoredVal.absent, true⟩ : LocalStorage).aoiKey
        = StoredVal.json (encodeAOIs [⟨"a", "n1", Json.null, "t1"⟩])) ∧
      (addAOI ⟨StoredVal.json (encodeAOIs [⟨"a", "n1", Json.null, "t1"⟩]),
            StoredVal.absent, true⟩ ⟨"b", "n2", Json.bool true, "t2"⟩
          = Except.ok ⟨StoredVal.json
              (encodeAOIs [⟨"a", "n1", Json.null, "t1"⟩, ⟨"b", "n2", Json.bool true, "t2"⟩]),
            StoredVal.absent, true⟩ ∧
        loadAOIs ⟨StoredVal.json
              (encodeAOIs [⟨"a", "n1", Json.null, "t1"⟩, ⟨"b", "n2", Json.bool true, "t2"⟩]),
            StoredVal.absent, true⟩
          = encodeAOIs [⟨"a", "n1", Json.null, "t1"⟩, ⟨"b", "n2", Json.bool true, "t2"⟩] ∧
        jget (encodeAOI ⟨"b", "n2", Json.bool true, "t2"⟩) "geometry"
          = some (Json.bool true) ∧
        (([⟨"a", "n1", Json.null, "t1"⟩, ⟨"b", "n2", Json.bool true, "t2"⟩] : List AOI).map
          AOI.id).Nodup) :=
  ⟨rfl,
    addAOI_round_trip
      ⟨StoredVal.json (encodeAOIs [⟨"a", "n1", Json.null, "t1"⟩]), StoredVal.absent, true⟩
      [⟨"a", "n1", Json.null, "t1"⟩] ⟨"b", "n2", Json.bool true, "t2"⟩
      rfl rfl (by decide) (by decide)⟩

/-! ### Claim C4 — deletion semantics -/

/-- Claim C4: on a writable store holding a well-formed collection,
`deleteAOI x` rewrites the store with exactly the records whose id
differs from `x`, preserving their relative order; and the written
collection equals the old one precisely when no stored record has id
`x` (the absent case is a content-level no-op with no error). -/
theorem deleteAOI_removes_exactly (ls : LocalStorage) (old : List AOI) (x : String)
    (hstore : ls.aoiKey = StoredVal.json (encodeAOIs old))
    (hw : ls.writable = true) :
    deleteAOI ls x =
        Except.ok { ls with
          aoiKey := StoredVal.json (encodeAOIs (old.filter (fun a => a.id != x))) } ∧
      ((old.filter (fun a => a.id != x) = old) ↔ x ∉ old.map AOI.id) := by
  constructor
  · simp [deleteAOI, loadAOIs, hstore, encodeAOIs, jsFilterIdNe, filter_encode,
      saveAOIs, setItem, hw]
  · rw [List.filter_eq_self]
    simp [List.mem_map]

/-- Claim C4 witness: deleting id `"a"` from a concrete two-record
store removes exactly the `"a"` record and keeps the `"b"` record. -/
theorem deleteAOI_removes_exactly_witness :
    ((⟨StoredVal.json (encodeAOIs [⟨"a", "n1", Json.null, "t1"⟩, ⟨"b", "n2", Json.null, "t2"⟩]),
        StoredVal.absent, true⟩ : LocalStorage).aoiKey
        = StoredVal.json (encodeAOIs [⟨"a", "n1", Json.null, "t1"⟩, ⟨"b", "n2", Json.null, "t2"⟩])) ∧
      (deleteAOI ⟨StoredVal.json
            (encodeAOIs [⟨"a", "n1", Json.null, "t1"⟩, ⟨"b", "n2", Json.null, "t2"⟩]),
          StoredVal.absent, true⟩ "a"
          = Except.ok ⟨StoredVal.json
              (encodeAOIs (([⟨"a", "n1", Json.null, "t1"⟩, ⟨"b", "n2", Json.null, "t2"⟩] :
                List AOI).filter (fun a => a.id != "a"))),
              StoredVal.absent, true⟩ ∧
        ((([⟨"a", "n1", Json.null, "t1"⟩, ⟨"b", "n2", Json.null, "t2"⟩] : List AOI).filter
            (fun a => a.id != "a")
            = [⟨"a", "n1", Json.null, "t1"⟩, ⟨"b", "n2", Json.null, "t2"⟩]) ↔
          "a" ∉ ([⟨"a", "n1", Json.null, "t1"⟩, ⟨"b", "n2", Json.null, "t2"⟩] : List AOI).map
            AOI.id)) :=
  ⟨rfl,
    deleteAOI_removes_exactly
      ⟨StoredVal.json (encodeAOIs [⟨"a", "n1", Json.null, "t1"⟩, ⟨"b", "n2", Json.null, "t2"⟩]),
        StoredVal.absent, true⟩
      [⟨"a", "n1", Json.null, "t1"⟩, ⟨"b", "n2", Json.null, "t2"⟩] "a" rfl rfl⟩

/-! ### Claim C5 — list operation on arbitrary storage content -/

/-- Claim C5, counterexample: the claim says the caller never observes
a non-list value; but the storage text rendering the empty JSON object
is accepted by `JSON.parse`, and `loadAOIs` returns the parsed value
without checking that it is an array, so the caller observes a
non-array JSON object. -/
theorem loadAOIs_nonlist_cex :
    loadAOIs ⟨StoredVal.json (Json.obj []), StoredVal.absent, true⟩ = Json.obj [] ∧
      (Json.obj []).isArr = false :=
  ⟨rfl, rfl⟩

/-- Claim C5 as amended: `loadAOIs` always returns normally (it is a
total function into JSON values, never an exception); an absent key, an
empty string, or text rejected by `JSON.parse` is treated as the empty
collection; but well-formed JSON content is returned as-is even when it
is not an array, so the caller can observe a non-list value. -/
theorem loadAOIs_read_behavior (ls : LocalStorage) :
    loadAOIs ls =
      (match ls.aoiKey with
       | StoredVal.json v => v
       | _ => Json.arr []) := by
  cases h : ls.aoiKey <;> simp [loadAOIs, h]

/-! ### Claim C1 — confirm gating -/

/-- Draw events starting from an attached, gated state keep the surface
attached and re-establish the confirm-gating invariant. -/
lemma runW_draw_inv (evs : List WEvent) :
    ∀ st : WState, st.fgAttached = true → confirmInv st →
      evs.all WEvent.isDraw = true →
      (runW st evs).fgAttached = true ∧ confirmInv (runW st evs) := by
  induction evs with
  | nil => exact fun st h1 h2 _ => ⟨h1, h2⟩
  | cons e rest ih =>
      intro st h1 h2 hall
      rw [List.all_cons, Bool.and_eq_true] at hall
      cases e with
      | created sh =>
          refine ih _ ?_ ?_ hall.2
          · simpa [stepW, onCreated] using h1
          · simp [confirmInv, stepW, onCreated, shapeCount, h1]
      | deleted rem =>
          refine ih _ ?_ ?_ hall.2
          · simpa [stepW, onDeleted] using h1
          · simp [confirmInv, stepW, onDeleted, shapeCount, h1, Nat.pos_iff_ne_zero]
      | suggestion s => simp [WEvent.isDraw] at hall

/-- Claim C1, counterexample: the claim requires `confirmEnabled ==
(shapeCount > 0)` immediately after every suggestion selection; but
selecting a suggestion that carries an outline enables confirm while
the feature group still holds zero shapes (the outline is rendered
outside the feature group). -/
theorem confirm_gating_suggestion_cex :
    (applySuggestion initWState ⟨"Cologne", none, some (Json.obj [])⟩).confirmDisabled
        = false ∧
      shapeCount (applySuggestion initWState ⟨"Cologne", none, some (Json.obj [])⟩) = 0 :=
  ⟨rfl, rfl⟩

/-- Claim C1 as amended: after every draw-created or draw-deleted event
the confirm action is enabled iff the drawing surface holds at least
one shape; after a suggestion selection, however, confirm is enabled
iff the suggestion carried an outline geometry, regardless of the
surface's shape count. -/
theorem confirm_gating (evs : List WEvent) (h : evs.all WEvent.isDraw = true)
    (st : WState) (sug : Suggestion) :
    confirmInv (runW initWState evs) ∧
      (applySuggestion st sug).confirmDisabled = sug.geojson.isNone := by
  constructor
  · exact (runW_draw_inv evs initWState rfl
      (by simp [confirmInv, initWState, shapeCount]) h).2
  · cases hg : sug.geojson <;> simp [applySuggestion, hg]

/-- Claim C1 witness: a draw followed by a delete-all, and a
no-outline suggestion. -/
theorem confirm_gating_witness :
    ([WEvent.created (Shape.drawn Json.null),
        WEvent.deleted ([] : List Shape)].all WEvent.isDraw = true) ∧
      (confirmInv (runW initWState
          [WEvent.created (Shape.drawn Json.null), WEvent.deleted ([] : List Shape)]) ∧
        (applySuggestion initWState ⟨"Cologne", none, none⟩).confirmDisabled
          = (none : Option Json).isNone) :=
  ⟨rfl,
    confirm_gating
      [WEvent.created (Shape.drawn Json.null), WEvent.deleted ([] : List Shape)]
      rfl initWState ⟨"Cologne", none, none⟩⟩

/-! ### Claim C8 — outline replace semantics -/

/-- Claim C8: with an outline staged and the feature group attached,
`applyOutlineAsBase` clears all previously drawn shapes and leaves
exactly one shape on the surface — the outline — enabling confirm and
notifying success. -/
theorem applyOutline_replace_semantics (st : WState) (g : Json)
    (hout : st.outlinePolygon = some g) (hfg : st.fgAttached = true) :
    (applyOutlineAsBase st).1.fgLayers = [Shape.outline g] ∧
      (applyOutlineAsBase st).1.confirmDisabled = false ∧
      (applyOutlineAsBase st).2
        = some (Notice.successN "Outline applied — edit if needed.") := by
  simp [applyOutlineAsBase, hout, hfg]

/-- Claim C8 witness: applying a staged outline over two manually drawn
shapes leaves exactly the outline. -/
theorem applyOutline_replace_semantics_witness :
    ((⟨true, [Shape.drawn Json.null, Shape.drawn (Json.num 3)], false,
        some (Json.obj []), "q", []⟩ : WState).outlinePolygon = some (Json.obj [])) ∧
      ((⟨true, [Shape.drawn Json.null, Shape.drawn (Json.num 3)], false,
          some (Json.obj []), "q", []⟩ : WState).fgAttached = true) ∧
      ((applyOutlineAsBase ⟨true, [Shape.drawn Json.null, Shape.drawn (Json.num 3)], false,
          some (Json.obj []), "q", []⟩).1.fgLayers = [Shape.outline (Json.obj [])] ∧
        (applyOutlineAsBase ⟨true, [Shape.drawn Json.null, Shape.drawn (Json.num 3)], false,
          some (Json.obj []), "q", []⟩).1.confirmDisabled = false ∧
        (applyOutlineAsBase ⟨true, [Shape.drawn Json.null, Shape.drawn (Json.num 3)], false,
          some (Json.obj []), "q", []⟩).2
          = some (Notice.successN "Outline applied — edit if needed.")) :=
  ⟨rfl, rfl,
    applyOutline_replace_semantics
      ⟨true, [Shape.drawn Json.null, Shape.drawn (Json.num 3)], false,
        some (Json.obj []), "q", []⟩ (Json.obj []) rfl rfl⟩

/-! ### Claim C9 — confirm with no shape -/

/-- Claim C9: with the feature group attached but holding zero shapes,
`confirmAOI` emits a user-visible error notification (the no-area
warning) and returns with the backing storage untouched, so the stored
AOI collection's length and contents are unchanged and no state is
corrupted. -/
theorem confirmAOI_no_shape (st : WState) (ls : LocalStorage) (i n t : String)
    (hfg : st.fgAttached = true) (hempty : st.fgLayers = []) :
    confirmAOI st ls i n t
      = Except.ok (ls, Notice.errorN "Draw or apply an outline first.") := by
  simp [confirmAOI, hfg, hempty]

/-- Claim C9 witness: confirming on the freshly mounted state with one
record already stored changes nothing and warns. -/
theorem confirmAOI_no_shape_witness :
    initWState.fgAttached = true ∧ initWState.fgLayers = [] ∧
      confirmAOI initWState
          ⟨StoredVal.json (encodeAOIs [⟨"a", "n1", Json.null, "t1"⟩]), StoredVal.absent, true⟩
          "id1" "ts1" "ts2"
        = Except.ok
            (⟨StoredVal.json (encodeAOIs [⟨"a", "n1", Json.null, "t1"⟩]), StoredVal.absent, true⟩,
             Notice.errorN "Draw or apply an outline first.") :=
  ⟨rfl, rfl,
    confirmAOI_no_shape initWState
      ⟨StoredVal.json (encodeAOIs [⟨"a", "n1", Json.null, "t1"⟩]), StoredVal.absent, true⟩
      "id1" "ts1" "ts2" rfl rfl⟩

/-! ### Claim C10 — confirm persists only the first shape -/

/-- Claim C10: with two or more shapes on the surface, `confirmAOI`
persists a single AOI whose geometry is `layers[0].toGeoJSON()` — the
first layer in the feature group's collection — and the geometries of
all other layers are never stored. -/
theorem confirmAOI_first_layer_only (st : WState) (ls : LocalStorage) (old : List AOI)
    (l0 : Shape) (rest : List Shape) (i n t : String)
    (hfg : st.fgAttached = true) (hlayers : st.fgLayers = l0 :: rest) (_hrest : rest ≠ [])
    (hstore : ls.aoiKey = StoredVal.json (encodeAOIs old)) (hw : ls.writable = true) :
    confirmAOI st ls i n t =
      Except.ok
        ({ ls with
            aoiKey := StoredVal.json (encodeAOIs (old ++ [⟨i, "Area " ++ n, l0.toGeoJSON, t⟩])) },
         Notice.successN "Area of Interest saved") := by
  have h := addAOI_ok ls old ⟨i, "Area " ++ n, l0.toGeoJSON, t⟩ hstore hw
  simp [confirmAOI, hfg, hlayers, h]

/-- Claim C10 witness: two drawn shapes; only the first one's geometry
is appended to the store. -/
theorem confirmAOI_first_layer_only_witness :
    ((⟨true, [Shape.drawn (Json.str "g1"), Shape.drawn (Json.str "g2")], false,
        none, "", []⟩ : WState).fgAttached = true) ∧
      ((⟨true, [Shape.drawn (Json.str "g1"), Shape.drawn (Json.str "g2")], false,
          none, "", []⟩ : WState).fgLayers
        = Shape.drawn (Json.str "g1") :: [Shape.drawn (Json.str "g2")]) ∧
      ([Shape.drawn (Json.str "g2")] ≠ ([] : List Shape)) ∧
      confirmAOI
          ⟨true, [Shape.drawn (Json.str "g1"), Shape.drawn (Json.str "g2")], false,
            none, "", []⟩
          ⟨StoredVal.json (encodeAOIs []), StoredVal.absent, true⟩ "id1" "ts1" "ts2"
        = Except.ok
            (⟨StoredVal.json
                (encodeAOIs [⟨"id1", "Area " ++ "ts1",
                  (Shape.drawn (Json.str "g1")).toGeoJSON, "ts2"⟩]),
              StoredVal.absent, true⟩,
             Notice.successN "Area of Interest saved") :=
  ⟨rfl, rfl, List.cons_ne_nil _ _,
    confirmAOI_first_layer_only
      ⟨true, [Shape.drawn (Json.str "g1"), Shape.drawn (Json.str "g2")], false, none, "", []⟩
      ⟨StoredVal.json (encodeAOIs []), StoredVal.absent, true⟩ []
      (Shape.drawn (Json.str "g1")) [Shape.drawn (Json.str "g2")] "id1" "ts1" "ts2"
      rfl rfl (List.cons_ne_nil _ _) rfl rfl⟩

/-! ### Claim C6 — idempotence of no-op view/theme transitions -/

/-- Claim C6, counterexample: the claim says `setViewMode(current)`
alters no observable state under every trigger, including keyboard
shortcuts; but pressing `b` while already in base mode still begins a
fade transition and shows a toast. -/
theorem viewmode_keyboard_fade_cex :
    (handleKey
        ⟨ViewMode.base, ThemeMode.light, false, true, none, true, false, true, (0, 0), 12⟩
        false Key.b).2.fades = 1 ∧
      (handleKey
        ⟨ViewMode.base, ThemeMode.light, false, true, none, true, false, true, (0, 0), 12⟩
        false Key.b).2.toasts = 1 ∧
      (⟨ViewMode.base, ThemeMode.light, false, true, none, true, false, true,
        (0, 0), 12⟩ : ViewState).viewMode = ViewMode.base :=
  ⟨rfl, rfl, rfl⟩

/-- Claim C6 as amended: requesting the current view mode through the
direct `setViewMode` callers (toolbar button, bottom-left toggle) and
requesting the current theme through `applyTheme` are complete no-ops
— no layer swap, no fade, no storage write, no state change; the
keyboard view-mode shortcut, however, unconditionally begins a fade and
shows a toast even when the requested mode is already current, though
it still performs no layer swap and no storage write. -/
theorem noop_transitions (s : ViewState) (h : s.viewMode = ViewMode.base) :
    reactSetViewMode s s.viewMode = (s, FX.zero) ∧
      applyTheme s s.theme = (s, FX.zero) ∧
      handleKey s false Key.b = ({ s with fading := false }, ⟨1, 0, 0, 1⟩) := by
  refine ⟨?_, ?_, ?_⟩
  · simp [reactSetViewMode]
  · simp [applyTheme]
  · simp [handleKey, reactSetViewMode, h, FX.zero]

/-- Claim C6 witness: the amended statement at a concrete base-mode
state. -/
theorem noop_transitions_witness :
    (⟨ViewMode.base, ThemeMode.dark, false, true, some ThemeMode.dark, true, false, true,
        (0, 0), 10⟩ : ViewState).viewMode = ViewMode.base ∧
      (reactSetViewMode
          ⟨ViewMode.base, ThemeMode.dark, false, true, some ThemeMode.dark, true, false, true,
            (0, 0), 10⟩
          (⟨ViewMode.base, ThemeMode.dark, false, true, some ThemeMode.dark, true, false, true,
            (0, 0), 10⟩ : ViewState).viewMode
          = (⟨ViewMode.base, ThemeMode.dark, false, true, some ThemeMode.dark, true, false, true,
              (0, 0), 10⟩, FX.zero) ∧
        applyTheme
          ⟨ViewMode.base, ThemeMode.dark, false, true, some ThemeMode.dark, true, false, true,
            (0, 0), 10⟩
          (⟨ViewMode.base, ThemeMode.dark, false, true, some ThemeMode.dark, true, false, true,
            (0, 0), 10⟩ : ViewState).theme
          = (⟨ViewMode.base, ThemeMode.dark, false, true, some ThemeMode.dark, true, false, true,
              (0, 0), 10⟩, FX.zero) ∧
        handleKey
          ⟨ViewMode.base, ThemeMode.dark, false, true, some ThemeMode.dark, true, false, true,
            (0, 0), 10⟩ false Key.b
          = ({ (⟨ViewMode.base, ThemeMode.dark, false, true, some ThemeMode.dark, true, false,
                true, (0, 0), 10⟩ : ViewState) with fading := false }, ⟨1, 0, 0, 1⟩)) :=
  ⟨rfl,
    noop_transitions
      ⟨ViewMode.base, ThemeMode.dark, false, true, some ThemeMode.dark, true, false, true,
        (0, 0), 10⟩ rfl⟩

/-! ### Claim C7 — minimap follows the primary map -/

/-- Each synchronization step leaves the minimap synchronized. -/
lemma syncInv_step (p : MView × MView) (e : MainEvent) : syncInv (stepSync p e) := by
  cases e <;> simp [stepSync, miniSync, syncInv]

/-- The synchronized relation survives any event sequence. -/
lemma syncInv_run (p : MView × MView) (evs : List MainEvent) (h : syncInv p) :
    syncInv (runSync p evs) := by
  induction evs generalizing p with
  | nil => exact h
  | cons e rest ih =>
      simp only [runSync, List.foldl_cons]
      exact ih (stepSync p e) (syncInv_step p e)

/-- Claim C7: after the initial sync and after every move/zoom event of
the primary map, the minimap's center equals the primary's center and
its zoom equals `max(0, primaryZoom - 4)`, applied without animation;
and when either map instance is not yet attached the synchronizer
attaches nothing and raises no error. -/
theorem minimap_follows_primary (main mini : MView) (evs : List MainEvent)
    (x : Option MView) :
    syncInv (runSync (main, miniSync main mini) evs) ∧
      attachSync none x = none ∧ attachSync x none = none := by
  refine ⟨syncInv_run _ evs ?_, ?_, ?_⟩
  · simp [syncInv, miniSync]
  · cases x <;> rfl
  · cases x <;> rfl

end GeoOutline
